import Mathlib

/-!
Shallow embedding of the `dear_future` Anchor program
(`src/anchor_project/programs/dear_future/src`, with the four-argument
`update_capsule` handler variant from
`src/program-Shahadh7/anchor_project/programs/dear_future/src/instructions/update_capsule.rs`,
which is the variant the program entrypoint `lib.rs` calls).

Modelling conventions:
* `Pubkey` is an abstract identity, modelled as `Nat`.
* `u64` counters are `Nat`; `checked_add(1).unwrap()` panics exactly when the
  counter is `2^64 - 1`, modelled by the `TxError.fatal` outcome.
* `i64` unix timestamps are `Int` (the program only compares them, never does
  arithmetic on them, so no overflow modelling is needed).
* An instruction handler is a function from the pre-state and its inputs to
  `Except TxError` of the post-state: the Solana runtime commits an account
  write-set only when the whole instruction succeeds, so an error result
  carries no state.  For `update_capsule`, whose Rust body mutates fields
  before later checks can still fail, the uncommitted sequence of writes is
  modelled separately (`updateCapsuleWrites`) and the committed handler
  (`updateCapsule`) discards those writes on error, mirroring the runtime's
  all-or-nothing commit.
* Anchor `#[account(...)]` constraints run before the handler body; they are
  modelled as guard checks at the head of each function.
* The error variants `UrlTooLong`, `NotOwner` and `CannotTransferToSelf` are
  referenced by the instruction files (`create_capsule.rs`,
  `transfer_capsule.rs`, `update_capsule.rs`) although the `errors.rs`
  snapshot under `src/` predates them; they are included in `ErrorCode` as
  the instruction code uses them.
-/

namespace DearFuture

abbrev Pubkey := Nat

def MAX_TITLE_LENGTH : Nat := 100
def MAX_CONTENT_LENGTH : Nat := 300
def MAX_URL_LENGTH : Nat := 500

/-- Modulus of the `u64` type of `Config.total_capsules`. -/
def U64_MODULUS : Nat := 2 ^ 64

/-- Error codes of the program (`errors.rs`, plus the variants used by the
instruction files as explained in the file header). -/
inductive ErrorCode where
  | UnlockDateMustBeFuture
  | CapsuleNotReadyToUnlock
  | CapsuleAlreadyUnlocked
  | TitleTooLong
  | ContentTooLong
  | InvalidUnlockDateExtension
  | CannotCloseLockedCapsule
  | CapsuleAlreadyHasMint
  | InvalidTokenAccount
  | UnauthorizedAccess
  | UrlTooLong
  | NotOwner
  | CannotTransferToSelf
  deriving Repr, DecidableEq

/-- Outcome of a failed transaction: either a program error code, or an
aborting panic (the `checked_add(..).unwrap()` overflow in
`create_capsule.rs`). -/
inductive TxError where
  | code (e : ErrorCode)
  | fatal
  deriving Repr, DecidableEq

/-- The `Config` account (`state.rs`). -/
structure Config where
  authority : Pubkey
  total_capsules : Nat
  version : Nat
  deriving Repr, DecidableEq

/-- The `Capsule` account (`state.rs`). -/
structure Capsule where
  creator : Pubkey
  owner : Pubkey
  id : Nat
  unlock_date : Int
  created_at : Int
  updated_at : Int
  transferred_at : Option Int
  mint : Option Pubkey
  mint_creator : Option Pubkey
  bump : Nat
  is_unlocked : Bool
  title : String
  content : String
  encrypted_url : Option String
  deriving Repr, DecidableEq

/-- Method `Capsule::is_ready_to_unlock` (`state.rs`). -/
def Capsule.is_ready_to_unlock (c : Capsule) (current_time : Int) : Bool :=
  current_time ≥ c.unlock_date

/-- Method `Capsule::can_be_updated` (`state.rs`). -/
def Capsule.can_be_updated (c : Capsule) : Bool :=
  ! c.is_unlocked

/-- Method `Capsule::can_be_transferred` (`state.rs`): only the current owner. -/
def Capsule.can_be_transferred (c : Capsule) (caller : Pubkey) : Bool :=
  c.owner == caller

/-- Method `Capsule::is_owned_by` (`state.rs`). -/
def Capsule.is_owned_by (c : Capsule) (pk : Pubkey) : Bool :=
  c.owner == pk

/-- Method `Capsule::transfer_to` (`state.rs`). -/
def Capsule.transfer_to (c : Capsule) (new_owner : Pubkey) (timestamp : Int) : Capsule :=
  { c with owner := new_owner, transferred_at := some timestamp, updated_at := timestamp }

/-- Method `Capsule::set_mint_info` (`state.rs`). -/
def Capsule.set_mint_info (c : Capsule) (mint mint_creator : Pubkey) (timestamp : Int) : Capsule :=
  { c with mint := some mint, mint_creator := some mint_creator, updated_at := timestamp }

/-- Handler of `initialize_config.rs`: fresh singleton `Config`. -/
def initializeConfig (authority : Pubkey) : Config :=
  { authority := authority, total_capsules := 0, version := 1 }

/-- Handler of `create_capsule.rs`.  Checks title, content, optional url lengths
and the future unlock date in source order, then initializes the capsule
(id = pre-increment counter) and increments the counter by checked addition
(`TxError.fatal` on `u64` overflow). -/
def createCapsule (config : Config) (creator : Pubkey) (title content : String)
    (unlock_date : Int) (encrypted_url : Option String) (now : Int) (bump : Nat) :
    Except TxError (Capsule × Config) :=
  if title.length > MAX_TITLE_LENGTH then .error (.code .TitleTooLong)
  else if content.length > MAX_CONTENT_LENGTH then .error (.code .ContentTooLong)
  else if encrypted_url.any (fun url => url.length > MAX_URL_LENGTH) then
    .error (.code .UrlTooLong)
  else if ¬ unlock_date > now then .error (.code .UnlockDateMustBeFuture)
  else if config.total_capsules + 1 ≥ U64_MODULUS then .error .fatal
  else
    .ok ({ creator := creator
           owner := creator
           id := config.total_capsules
           unlock_date := unlock_date
           created_at := now
           updated_at := now
           transferred_at := none
           mint := none
           mint_creator := none
           bump := bump
           is_unlocked := false
           title := title
           content := content
           encrypted_url := encrypted_url },
         { config with total_capsules := config.total_capsules + 1 })

/-- Sequencing of uncommitted writes: stop at the first recorded error,
keeping the writes made so far. -/
def andThen (s : Capsule × Option TxError) (f : Capsule → Capsule × Option TxError) :
    Capsule × Option TxError :=
  match s with
  | (c, some e) => (c, some e)
  | (c, none) => f c

/-- Content branch of the `update_capsule` handler body. -/
def contentStep (new_content : Option String) (c : Capsule) : Capsule × Option TxError :=
  match new_content with
  | none => (c, none)
  | some content =>
    if content.length > MAX_CONTENT_LENGTH then (c, some (.code .ContentTooLong))
    else ({ c with content := content }, none)

/-- Unlock-date branch of the `update_capsule` handler body. -/
def dateStep (new_unlock_date : Option Int) (c : Capsule) : Capsule × Option TxError :=
  match new_unlock_date with
  | none => (c, none)
  | some unlock_date =>
    if ¬ unlock_date > c.unlock_date then (c, some (.code .InvalidUnlockDateExtension))
    else ({ c with unlock_date := unlock_date }, none)

/-- Encrypted-url branch of the `update_capsule` handler body: removal takes
precedence over setting. -/
def urlStep (new_encrypted_url : Option String) (removeUrl : Bool) (c : Capsule) :
    Capsule × Option TxError :=
  if removeUrl then ({ c with encrypted_url := none }, none)
  else
    match new_encrypted_url with
    | none => (c, none)
    | some url =>
      if url.length > MAX_URL_LENGTH then (c, some (.code .UrlTooLong))
      else ({ c with encrypted_url := some url }, none)

/-- The `update_capsule` handler body as its raw (uncommitted) sequence of
checks and field writes, in source order: the already-unlocked guard, then
content, unlock-date and url branches, then the unconditional `updated_at`
refresh.  The second component records the first violated check. -/
def updateCapsuleWrites (c : Capsule) (new_content : Option String)
    (new_unlock_date : Option Int) (new_encrypted_url : Option String)
    (removeUrl : Bool) (now : Int) : Capsule × Option TxError :=
  if ¬ c.can_be_updated then (c, some (.code .CapsuleAlreadyUnlocked))
  else
    andThen (andThen (andThen (contentStep new_content c) (dateStep new_unlock_date))
        (urlStep new_encrypted_url removeUrl))
      (fun c3 => ({ c3 with updated_at := now }, none))

/-- Handler `update_capsule` as committed by the runtime: the Anchor account
constraint `capsule.owner == owner.key() @ NotOwner` runs first, then the
handler body; on any error the runtime discards every write. -/
def updateCapsule (c : Capsule) (caller : Pubkey) (new_content : Option String)
    (new_unlock_date : Option Int) (new_encrypted_url : Option String)
    (removeUrl : Bool) (now : Int) : Except TxError Capsule :=
  if c.owner ≠ caller then .error (.code .NotOwner)
  else
    match updateCapsuleWrites c new_content new_unlock_date new_encrypted_url removeUrl now with
    | (_, some e) => .error e
    | (c', none) => .ok c'

/-- Handler of `unlock_capsule.rs`.  The `unlocker` signer carries no account
constraint, so the result never depends on it. -/
def unlockCapsule (c : Capsule) (unlocker : Pubkey) (now : Int) : Except TxError Capsule :=
  if c.is_ready_to_unlock now then
    .ok { c with is_unlocked := true, updated_at := now }
  else .error (.code .CapsuleNotReadyToUnlock)

/-- Handler of `transfer_capsule.rs`, including the Anchor account constraint
`capsule.can_be_transferred(&current_owner.key()) @ NotOwner` followed by the
in-body `is_owned_by` re-check, the self-transfer guard, the optional mint
association and the ownership transfer. -/
def transferCapsule (c : Capsule) (current_owner new_owner : Pubkey)
    (mint_address : Option Pubkey) (now : Int) : Except TxError Capsule :=
  if ¬ c.can_be_transferred current_owner then .error (.code .NotOwner)
  else if ¬ c.is_owned_by current_owner then .error (.code .NotOwner)
  else if new_owner = current_owner then .error (.code .CannotTransferToSelf)
  else
    let c1 := match mint_address with
      | some mint => c.set_mint_info mint current_owner now
      | none => c
    .ok (c1.transfer_to new_owner now)

/-- Handler of `close_capsule.rs`: the Anchor constraint `capsule.creator == creator.key()
@ UnauthorizedAccess` runs first, then the handler requires `is_unlocked`.
A successful close deallocates the account, so the result carries no state. -/
def closeCapsule (c : Capsule) (caller : Pubkey) : Except TxError Unit :=
  if c.creator ≠ caller then .error (.code .UnauthorizedAccess)
  else if ¬ c.is_unlocked then .error (.code .CannotCloseLockedCapsule)
  else .ok ()

/-- One `create_capsule` call's inputs, for trace reasoning over sequences of
creations by arbitrary creators. -/
structure CreateReq where
  creator : Pubkey
  title : String
  content : String
  unlock_date : Int
  encrypted_url : Option String
  now : Int
  bump : Nat
  deriving Repr

/-- Runs a sequence of `create_capsule` calls against the shared `Config`;
failed calls leave the `Config` unchanged (atomic abort).  Returns the final
`Config` and the list of capsule ids assigned by the successful calls, in
commit order. -/
def runCreates : Config → List CreateReq → Config × List Nat
  | cfg, [] => (cfg, [])
  | cfg, r :: rs =>
    match createCapsule cfg r.creator r.title r.content r.unlock_date r.encrypted_url r.now r.bump with
    | .ok (caps, cfg') =>
      let rest := runCreates cfg' rs
      (rest.1, caps.id :: rest.2)
    | .error _ => runCreates cfg rs

/-- Committed post-state of an `update_capsule` call: on error the runtime
leaves the account as it was. -/
def updateCommit (c : Capsule) (caller : Pubkey) (new_content : Option String)
    (new_unlock_date : Option Int) (new_encrypted_url : Option String)
    (removeUrl : Bool) (now : Int) : Capsule :=
  match updateCapsule c caller new_content new_unlock_date new_encrypted_url removeUrl now with
  | .ok c' => c'
  | .error _ => c

/-- Committed post-state of a `transfer_capsule` call. -/
def transferCommit (c : Capsule) (current_owner new_owner : Pubkey)
    (mint_address : Option Pubkey) (now : Int) : Capsule :=
  match transferCapsule c current_owner new_owner mint_address now with
  | .ok c' => c'
  | .error _ => c

/-- Committed post-state of an `unlock_capsule` call. -/
def unlockCommit (c : Capsule) (unlocker : Pubkey) (now : Int) : Capsule :=
  match unlockCapsule c unlocker now with
  | .ok c' => c'
  | .error _ => c

/-- Committed post-state of the `Config` across a `create_capsule` call. -/
def createCommitConfig (config : Config) (creator : Pubkey) (title content : String)
    (unlock_date : Int) (encrypted_url : Option String) (now : Int) (bump : Nat) : Config :=
  match createCapsule config creator title content unlock_date encrypted_url now bump with
  | .ok (_, cfg') => cfg'
  | .error _ => config

/-- Sample capsule used by the concrete witnesses. -/
def sampleCapsule : Capsule :=
  { creator := 1, owner := 1, id := 0, unlock_date := 100, created_at := 0, updated_at := 0,
    transferred_at := none, mint := none, mint_creator := none, bump := 255,
    is_unlocked := false, title := "A", content := "B", encrypted_url := none }

/-- Sample config used by the concrete witnesses. -/
def sampleConfig : Config := { authority := 9, total_capsules := 0, version := 1 }

/-- Sample creation request used by the concrete witnesses. -/
def sampleReq : CreateReq :=
  { creator := 1, title := "A", content := "B", unlock_date := 10, encrypted_url := none,
    now := 0, bump := 255 }

/-- Capsule produced by `createCapsule` on `sampleConfig` and `sampleReq`. -/
def sampleCreatedCapsule : Capsule :=
  { creator := 1, owner := 1, id := 0, unlock_date := 10, created_at := 0, updated_at := 0,
    transferred_at := none, mint := none, mint_creator := none, bump := 255,
    is_unlocked := false, title := "A", content := "B", encrypted_url := none }

/-- Config produced by `createCapsule` on `sampleConfig` and `sampleReq`. -/
def sampleNewConfig : Config := { authority := 9, total_capsules := 1, version := 1 }

/-- A 101-character title, violating `MAX_TITLE_LENGTH`. -/
def longTitle : String := String.mk (List.replicate 101 'a')

/-- A 501-character url, violating `MAX_URL_LENGTH`. -/
def longUrl : String := String.mk (List.replicate 501 'u')

/-! ### Helper lemmas -/

/-- A successful creation assigns the pre-increment counter as the id and
increments the counter by one. -/
theorem createCapsule_ok_id_total (cfg : Config) (creator : Pubkey) (title content : String)
    (unlock_date : Int) (url : Option String) (now : Int) (bump : Nat)
    (caps : Capsule) (cfg' : Config)
    (h : createCapsule cfg creator title content unlock_date url now bump = .ok (caps, cfg')) :
    caps.id = cfg.total_capsules ∧ cfg'.total_capsules = cfg.total_capsules + 1 := by
  unfold createCapsule at h
  repeat' split at h
  all_goals simp_all
  obtain ⟨h1, h2⟩ := h
  constructor
  · rw [← h1]
  · rw [← h2]

/-- Trace lemma: from any starting `Config`, the ids assigned by a sequence of
creations are consecutive from the starting counter, and the final counter has
advanced by the number of successes. -/
theorem runCreates_ids (rs : List CreateReq) (cfg : Config) :
    (runCreates cfg rs).2 = List.range' cfg.total_capsules (runCreates cfg rs).2.length ∧
    (runCreates cfg rs).1.total_capsules = cfg.total_capsules + (runCreates cfg rs).2.length := by
  induction rs generalizing cfg with
  | nil => simp [runCreates]
  | cons r rs ih =>
    unfold runCreates
    cases h : createCapsule cfg r.creator r.title r.content r.unlock_date r.encrypted_url r.now r.bump with
    | error e => simpa using ih cfg
    | ok p =>
      obtain ⟨caps, cfg'⟩ := p
      obtain ⟨hid, htot⟩ := createCapsule_ok_id_total cfg r.creator r.title r.content
        r.unlock_date r.encrypted_url r.now r.bump caps cfg' h
      obtain ⟨ih1, ih2⟩ := ih cfg'
      refine ⟨?_, ?_⟩
      · simp only [List.length_cons, List.range'_succ, hid]
        rw [ih1, htot]
        simp
      · simp only [List.length_cons]
        rw [ih2, htot]
        omega

/-- A property of the partial state is kept by `andThen` when the initial
state has it and the continuation preserves it. -/
theorem andThen_fst_pres {P : Capsule → Prop} {s : Capsule × Option TxError}
    {f : Capsule → Capsule × Option TxError}
    (hs : P s.1) (hf : ∀ x, P x → P (f x).1) : P (andThen s f).1 := by
  obtain ⟨c, e⟩ := s
  cases e with
  | none => exact hf c hs
  | some e => exact hs

/-- The content branch never touches `is_unlocked`. -/
theorem contentStep_is_unlocked (nc : Option String) (c : Capsule) :
    (contentStep nc c).1.is_unlocked = c.is_unlocked := by
  cases nc with
  | none => rfl
  | some s => simp only [contentStep]; split <;> rfl

/-- The unlock-date branch never touches `is_unlocked`. -/
theorem dateStep_is_unlocked (nd : Option Int) (c : Capsule) :
    (dateStep nd c).1.is_unlocked = c.is_unlocked := by
  cases nd with
  | none => rfl
  | some d => simp only [dateStep]; split <;> rfl

/-- The url branch never touches `is_unlocked`. -/
theorem urlStep_is_unlocked (nu : Option String) (rm : Bool) (c : Capsule) :
    (urlStep nu rm c).1.is_unlocked = c.is_unlocked := by
  cases rm with
  | true => rfl
  | false =>
    cases nu with
    | none => rfl
    | some u => simp only [urlStep, Bool.false_eq_true, if_false]; split <;> rfl

/-- The raw write sequence of `update_capsule` never touches `is_unlocked`. -/
theorem updateCapsuleWrites_is_unlocked (c : Capsule) (nc : Option String) (nd : Option Int)
    (nu : Option String) (rm : Bool) (now : Int) :
    (updateCapsuleWrites c nc nd nu rm now).1.is_unlocked = c.is_unlocked := by
  unfold updateCapsuleWrites
  split
  · rfl
  · apply andThen_fst_pres (P := fun x => x.is_unlocked = c.is_unlocked)
    · apply andThen_fst_pres (P := fun x => x.is_unlocked = c.is_unlocked)
      · apply andThen_fst_pres (P := fun x => x.is_unlocked = c.is_unlocked)
        · exact contentStep_is_unlocked nc c
        · exact fun x hx => (dateStep_is_unlocked nd x).trans hx
      · exact fun x hx => (urlStep_is_unlocked nu rm x).trans hx
    · exact fun x hx => hx

/-- A committed `update_capsule` result is the final state of the raw write
sequence. -/
theorem updateCapsule_ok_eq_writes (c : Capsule) (caller : Pubkey) (nc : Option String)
    (nd : Option Int) (nu : Option String) (rm : Bool) (now : Int) (c' : Capsule)
    (h : updateCapsule c caller nc nd nu rm now = .ok c') :
    c' = (updateCapsuleWrites c nc nd nu rm now).1 := by
  unfold updateCapsule at h
  split at h
  · exact absurd h (by simp)
  · split at h <;> simp_all

/-- An already-unlocked capsule rejects every authorized update with
`CapsuleAlreadyUnlocked`. -/
theorem updateCapsule_already_unlocked (c : Capsule) (caller : Pubkey) (nc : Option String)
    (nd : Option Int) (nu : Option String) (rm : Bool) (now : Int)
    (h : c.is_unlocked = true) (hown : c.owner = caller) :
    updateCapsule c caller nc nd nu rm now = .error (.code .CapsuleAlreadyUnlocked) := by
  simp [updateCapsule, updateCapsuleWrites, Capsule.can_be_updated, h, hown]

/-- Happy-path characterization of the raw write sequence of
`update_capsule` with `remove_encrypted_url = true`: the url is cleared no
matter what `new_encrypted_url` holds, and no url length check runs. -/
theorem updateCapsuleWrites_ok_remove (c : Capsule) (nc : Option String) (nd : Option Int)
    (nu : Option String) (now : Int)
    (h0 : c.is_unlocked = false)
    (h1 : ∀ s, nc = some s → s.length ≤ MAX_CONTENT_LENGTH)
    (h2 : ∀ d, nd = some d → d > c.unlock_date) :
    updateCapsuleWrites c nc nd nu true now =
      ({ c with
          content := nc.getD c.content
          unlock_date := nd.getD c.unlock_date
          encrypted_url := none
          updated_at := now }, none) := by
  cases nc with
  | none =>
    cases nd with
    | none =>
      simp [updateCapsuleWrites, andThen, contentStep, dateStep, urlStep,
        Capsule.can_be_updated, h0]
    | some d =>
      simp [updateCapsuleWrites, andThen, contentStep, dateStep, urlStep,
        Capsule.can_be_updated, h0, h2 d rfl]
  | some s =>
    have hs := Nat.not_lt.mpr (h1 s rfl)
    cases nd with
    | none =>
      simp [updateCapsuleWrites, andThen, contentStep, dateStep, urlStep,
        Capsule.can_be_updated, h0, hs]
    | some d =>
      simp [updateCapsuleWrites, andThen, contentStep, dateStep, urlStep,
        Capsule.can_be_updated, h0, hs, h2 d rfl]

/-- Happy-path characterization of the raw write sequence of
`update_capsule` with `remove_encrypted_url = false`: when every supplied
input passes its check, all the writes land and no error is recorded. -/
theorem updateCapsuleWrites_ok_keep (c : Capsule) (nc : Option String) (nd : Option Int)
    (nu : Option String) (now : Int)
    (h0 : c.is_unlocked = false)
    (h1 : ∀ s, nc = some s → s.length ≤ MAX_CONTENT_LENGTH)
    (h2 : ∀ d, nd = some d → d > c.unlock_date)
    (h3 : ∀ u, nu = some u → u.length ≤ MAX_URL_LENGTH) :
    updateCapsuleWrites c nc nd nu false now =
      ({ c with
          content := nc.getD c.content
          unlock_date := nd.getD c.unlock_date
          encrypted_url := (nu.map some).getD c.encrypted_url
          updated_at := now }, none) := by
  cases nc with
  | none =>
    cases nd with
    | none =>
      cases nu with
      | none =>
        simp [updateCapsuleWrites, andThen, contentStep, dateStep, urlStep,
          Capsule.can_be_updated, h0]
      | some u =>
        simp [updateCapsuleWrites, andThen, contentStep, dateStep, urlStep,
          Capsule.can_be_updated, h0, Nat.not_lt.mpr (h3 u rfl)]
    | some d =>
      cases nu with
      | none =>
        simp [updateCapsuleWrites, andThen, contentStep, dateStep, urlStep,
          Capsule.can_be_updated, h0, h2 d rfl]
      | some u =>
        simp [updateCapsuleWrites, andThen, contentStep, dateStep, urlStep,
          Capsule.can_be_updated, h0, h2 d rfl, Nat.not_lt.mpr (h3 u rfl)]
  | some s =>
    have hs := Nat.not_lt.mpr (h1 s rfl)
    cases nd with
    | none =>
      cases nu with
      | none =>
        simp [updateCapsuleWrites, andThen, contentStep, dateStep, urlStep,
          Capsule.can_be_updated, h0, hs]
      | some u =>
        simp [updateCapsuleWrites, andThen, contentStep, dateStep, urlStep,
          Capsule.can_be_updated, h0, hs, Nat.not_lt.mpr (h3 u rfl)]
    | some d =>
      cases nu with
      | none =>
        simp [updateCapsuleWrites, andThen, contentStep, dateStep, urlStep,
          Capsule.can_be_updated, h0, hs, h2 d rfl]
      | some u =>
        simp [updateCapsuleWrites, andThen, contentStep, dateStep, urlStep,
          Capsule.can_be_updated, h0, hs, h2 d rfl, Nat.not_lt.mpr (h3 u rfl)]

/-- A successful creation leaves the new capsule locked. -/
theorem createCapsule_ok_is_unlocked (cfg : Config) (creator : Pubkey) (title content : String)
    (unlock_date : Int) (url : Option String) (now : Int) (bump : Nat)
    (caps : Capsule) (cfg' : Config)
    (h : createCapsule cfg creator title content unlock_date url now bump = .ok (caps, cfg')) :
    caps.is_unlocked = false := by
  unfold createCapsule at h
  repeat' split at h
  all_goals simp_all
  obtain ⟨h1, h2⟩ := h
  rw [← h1]

/-- A successful update's `is_unlocked` equals the pre-state's. -/
theorem updateCapsule_ok_is_unlocked (c : Capsule) (caller : Pubkey) (nc : Option String)
    (nd : Option Int) (nu : Option String) (rm : Bool) (now : Int) (c' : Capsule)
    (h : updateCapsule c caller nc nd nu rm now = .ok c') :
    c'.is_unlocked = c.is_unlocked := by
  rw [updateCapsule_ok_eq_writes c caller nc nd nu rm now c' h]
  exact updateCapsuleWrites_is_unlocked c nc nd nu rm now

/-- Field bookkeeping of a successful transfer: the creator and the unlock
latch are untouched, ownership and the transfer timestamp are set. -/
theorem transferCapsule_ok_fields (c : Capsule) (current_owner new_owner : Pubkey)
    (ma : Option Pubkey) (now : Int) (c' : Capsule)
    (h : transferCapsule c current_owner new_owner ma now = .ok c') :
    c'.creator = c.creator ∧ c'.owner = new_owner ∧ c'.is_unlocked = c.is_unlocked ∧
    c'.transferred_at = some now ∧ c'.updated_at = now := by
  unfold transferCapsule at h
  repeat' split at h
  all_goals first
  | (simp only [Except.ok.injEq] at h; rw [← h]; simp [Capsule.transfer_to, Capsule.set_mint_info])
  | exact absurd h (by simp)

/-- A successful unlock sets `is_unlocked` to `true`. -/
theorem unlockCapsule_ok_is_unlocked (c : Capsule) (u : Pubkey) (now : Int) (c' : Capsule)
    (h : unlockCapsule c u now = .ok c') : c'.is_unlocked = true := by
  unfold unlockCapsule at h
  split at h
  · rw [← Except.ok.inj h]
  · exact absurd h (by simp)

/-! ### Claim theorems -/

/-- C1: every successful `create_capsule` increments `Config.total_capsules`
by exactly one and assigns the pre-increment counter value as the new
capsule's id; hence, starting from the freshly initialized config, the ids
observed across any sequence of creations by any creators are `0, 1, 2, …`
in commit order, and `total_capsules` equals the count of successful
creations. -/
theorem create_ids_sequential (authority : Pubkey) (rs : List CreateReq) :
    (∀ (cfg : Config) (r : CreateReq) (caps : Capsule) (cfg' : Config),
        createCapsule cfg r.creator r.title r.content r.unlock_date r.encrypted_url r.now r.bump
          = .ok (caps, cfg') →
        caps.id = cfg.total_capsules ∧ cfg'.total_capsules = cfg.total_capsules + 1) ∧
    (runCreates (initializeConfig authority) rs).2 =
      List.range (runCreates (initializeConfig authority) rs).2.length ∧
    (runCreates (initializeConfig authority) rs).1.total_capsules =
      (runCreates (initializeConfig authority) rs).2.length := by
  refine ⟨fun cfg r caps cfg' h =>
    createCapsule_ok_id_total cfg r.creator r.title r.content r.unlock_date
      r.encrypted_url r.now r.bump caps cfg' h, ?_, ?_⟩
  · rw [(runCreates_ids rs (initializeConfig authority)).1]
    simp [initializeConfig, List.range_eq_range']
  · have h := (runCreates_ids rs (initializeConfig authority)).2
    simpa [initializeConfig] using h

/-- Concrete check of C1: two creations from the initial config yield ids in
commit order, and the first creation's id is the pre-increment counter. -/
theorem create_ids_sequential_witness :
    ((runCreates (initializeConfig 9) [sampleReq, sampleReq]).2 =
      List.range (runCreates (initializeConfig 9) [sampleReq, sampleReq]).2.length) ∧
    sampleCreatedCapsule.id = sampleConfig.total_capsules := by
  refine ⟨(create_ids_sequential 9 [sampleReq, sampleReq]).2.1, ?_⟩
  exact ((create_ids_sequential 9 []).1 sampleConfig sampleReq
    sampleCreatedCapsule sampleNewConfig rfl).1

/-- C2: `create_capsule` evaluates its checks in the fixed order title
length, content length, optional url length, then strict future unlock date;
the first violated check's error aborts the call (with no state committed,
since an error carries no post-state), and `unlock_date = now + 1` passes
the temporal check, so the call succeeds whenever the length checks pass and
the counter does not overflow. -/
theorem create_check_order (cfg : Config) (creator : Pubkey) (title content : String)
    (unlock_date : Int) (url : Option String) (now : Int) (bump : Nat) :
    (title.length > MAX_TITLE_LENGTH →
      createCapsule cfg creator title content unlock_date url now bump =
        .error (.code .TitleTooLong)) ∧
    (title.length ≤ MAX_TITLE_LENGTH → content.length > MAX_CONTENT_LENGTH →
      createCapsule cfg creator title content unlock_date url now bump =
        .error (.code .ContentTooLong)) ∧
    (title.length ≤ MAX_TITLE_LENGTH → content.length ≤ MAX_CONTENT_LENGTH →
      (∀ u, url = some u → u.length > MAX_URL_LENGTH →
        createCapsule cfg creator title content unlock_date url now bump =
          .error (.code .UrlTooLong))) ∧
    (title.length ≤ MAX_TITLE_LENGTH → content.length ≤ MAX_CONTENT_LENGTH →
      (∀ u, url = some u → u.length ≤ MAX_URL_LENGTH) → unlock_date ≤ now →
      createCapsule cfg creator title content unlock_date url now bump =
        .error (.code .UnlockDateMustBeFuture)) ∧
    (title.length ≤ MAX_TITLE_LENGTH → content.length ≤ MAX_CONTENT_LENGTH →
      (∀ u, url = some u → u.length ≤ MAX_URL_LENGTH) →
      cfg.total_capsules + 1 < U64_MODULUS →
      ∃ caps cfg', createCapsule cfg creator title content (now + 1) url now bump =
        .ok (caps, cfg')) := by
  refine ⟨?_, ?_, ?_, ?_, ?_⟩
  · intro h
    simp [createCapsule, h]
  · intro h1 h2
    simp [createCapsule, Nat.not_lt.mpr h1, h2]
  · intro h1 h2 u hu hu2
    subst hu
    simp [createCapsule, Nat.not_lt.mpr h1, Nat.not_lt.mpr h2, hu2]
  · intro h1 h2 h3 h4
    cases url with
    | none =>
      simp [createCapsule, Nat.not_lt.mpr h1, Nat.not_lt.mpr h2, not_lt.mpr h4]
    | some u =>
      simp [createCapsule, Nat.not_lt.mpr h1, Nat.not_lt.mpr h2,
        Nat.not_lt.mpr (h3 u rfl), not_lt.mpr h4]
  · intro h1 h2 h3 h5
    refine ⟨{ creator := creator, owner := creator, id := cfg.total_capsules,
              unlock_date := now + 1, created_at := now, updated_at := now,
              transferred_at := none, mint := none, mint_creator := none, bump := bump,
              is_unlocked := false, title := title, content := content,
              encrypted_url := url },
      { cfg with total_capsules := cfg.total_capsules + 1 }, ?_⟩
    cases url with
    | none =>
      simp [createCapsule, Nat.not_lt.mpr h1, Nat.not_lt.mpr h2, lt_add_one now,
        Nat.not_le.mpr h5]
    | some u =>
      simp [createCapsule, Nat.not_lt.mpr h1, Nat.not_lt.mpr h2,
        Nat.not_lt.mpr (h3 u rfl), lt_add_one now, Nat.not_le.mpr h5]

/-- Concrete check of C2: a 101-character title is rejected first. -/
theorem create_check_order_witness :
    createCapsule sampleConfig 1 longTitle "B" 10 none 0 255 = .error (.code .TitleTooLong) :=
  (create_check_order sampleConfig 1 longTitle "B" 10 none 0 255).1 (by decide)

/-- C3: `unlock_capsule` fails with `CapsuleNotReadyToUnlock` exactly when
`now < unlock_date` and succeeds for every `now ≥ unlock_date` (boundary
included), setting `is_unlocked := true` and `updated_at := now`; the result
never depends on who the unlocker is; and a repeated unlock on an
already-unlocked capsule (at a non-decreasing time) still succeeds, leaving
`is_unlocked` true. -/
theorem unlock_readiness (c : Capsule) (u u' : Pubkey) (now now' : Int) :
    (now < c.unlock_date →
      unlockCapsule c u now = .error (.code .CapsuleNotReadyToUnlock)) ∧
    (c.unlock_date ≤ now →
      unlockCapsule c u now = .ok { c with is_unlocked := true, updated_at := now }) ∧
    unlockCapsule c u now = unlockCapsule c u' now ∧
    (∀ c', unlockCapsule c u now = .ok c' → now ≤ now' →
      c'.is_unlocked = true ∧
      unlockCapsule c' u' now' = .ok { c' with is_unlocked := true, updated_at := now' }) := by
  refine ⟨?_, ?_, rfl, ?_⟩
  · intro h
    simp [unlockCapsule, Capsule.is_ready_to_unlock, not_le.mpr h]
  · intro h
    simp [unlockCapsule, Capsule.is_ready_to_unlock, h]
  · intro c' h hnn
    unfold unlockCapsule at h
    by_cases hr : c.is_ready_to_unlock now
    · rw [if_pos hr] at h
      have hd : c.unlock_date ≤ now := by
        simpa [Capsule.is_ready_to_unlock] using hr
      have hc' : c' = { c with is_unlocked := true, updated_at := now } :=
        (Except.ok.inj h).symm
      subst hc'
      refine ⟨rfl, ?_⟩
      simp [unlockCapsule, Capsule.is_ready_to_unlock, le_trans hd hnn]
    · rw [if_neg hr] at h
      exact absurd h (by simp)

/-- Concrete check of C3: unlocking at time 50 a capsule whose unlock date
is 100 fails with `CapsuleNotReadyToUnlock`. -/
theorem unlock_readiness_witness :
    unlockCapsule sampleCapsule 1 50 = .error (.code .CapsuleNotReadyToUnlock) :=
  (unlock_readiness sampleCapsule 1 2 50 60).1 (by decide)

/-- C4: `is_unlocked` is a one-way latch: creation sets it to `false`,
`update_capsule` and `transfer_capsule` never change it, `unlock_capsule`
only ever sets it to `true`, and consequently no successful operation resets
it from `true` to `false`. -/
theorem is_unlocked_one_way (cfg : Config) (r : CreateReq) (c : Capsule)
    (caller current_owner new_owner unlocker : Pubkey)
    (nc : Option String) (nd : Option Int) (nu : Option String) (rm : Bool)
    (ma : Option Pubkey) (now : Int) :
    (∀ (caps : Capsule) (cfg' : Config),
      createCapsule cfg r.creator r.title r.content r.unlock_date r.encrypted_url r.now r.bump
        = .ok (caps, cfg') → caps.is_unlocked = false) ∧
    (∀ c', updateCapsule c caller nc nd nu rm now = .ok c' →
      c'.is_unlocked = c.is_unlocked) ∧
    (∀ c', transferCapsule c current_owner new_owner ma now = .ok c' →
      c'.is_unlocked = c.is_unlocked) ∧
    (∀ c', unlockCapsule c unlocker now = .ok c' → c'.is_unlocked = true) ∧
    (∀ c', c.is_unlocked = true →
      (updateCapsule c caller nc nd nu rm now = .ok c' ∨
       transferCapsule c current_owner new_owner ma now = .ok c' ∨
       unlockCapsule c unlocker now = .ok c') → c'.is_unlocked = true) := by
  refine ⟨?_, ?_, ?_, ?_, ?_⟩
  · exact fun caps cfg' h =>
      createCapsule_ok_is_unlocked cfg r.creator r.title r.content r.unlock_date
        r.encrypted_url r.now r.bump caps cfg' h
  · exact fun c' h => updateCapsule_ok_is_unlocked c caller nc nd nu rm now c' h
  · exact fun c' h => (transferCapsule_ok_fields c current_owner new_owner ma now c' h).2.2.1
  · exact fun c' h => unlockCapsule_ok_is_unlocked c unlocker now c' h
  · intro c' hc hcase
    rcases hcase with h | h | h
    · rw [updateCapsule_ok_is_unlocked c caller nc nd nu rm now c' h]
      exact hc
    · rw [(transferCapsule_ok_fields c current_owner new_owner ma now c' h).2.2.1]
      exact hc
    · exact unlockCapsule_ok_is_unlocked c unlocker now c' h

/-- Concrete check of C4: transferring an unlocked capsule keeps it
unlocked. -/
theorem is_unlocked_one_way_witness :
    ({ sampleCapsule with is_unlocked := true, owner := 2, transferred_at := some 5,
                          updated_at := (5 : Int) } : Capsule).is_unlocked = true := by
  refine (is_unlocked_one_way sampleConfig sampleReq
    { sampleCapsule with is_unlocked := true } 1 1 2 1 none none none false none 5).2.2.2.2
    _ rfl (Or.inr (Or.inl ?_))
  rfl

/-- C5: for a locked capsule, an owner-authorized `update_capsule` carrying
only `new_unlock_date = d` replaces `unlock_date` with `d` exactly when
`d > unlock_date` (also stamping `updated_at`), and otherwise fails with
`InvalidUnlockDateExtension`: the unlock date can never be shortened or kept
equal. -/
theorem update_extension_only (c : Capsule) (d now : Int) (h : c.is_unlocked = false) :
    (d > c.unlock_date →
      updateCapsule c c.owner none (some d) none false now =
        .ok { c with unlock_date := d, updated_at := now }) ∧
    (d ≤ c.unlock_date →
      updateCapsule c c.owner none (some d) none false now =
        .error (.code .InvalidUnlockDateExtension)) := by
  constructor
  · intro hd
    have hw := updateCapsuleWrites_ok_keep c none (some d) none now h
      (fun s hs => by cases hs)
      (fun d' hd' => (Option.some.inj hd') ▸ hd)
      (fun u hu => by cases hu)
    rw [updateCapsule, if_neg (by simp), hw]
    rfl
  · intro hd
    simp [updateCapsule, updateCapsuleWrites, andThen, contentStep, dateStep, urlStep,
      Capsule.can_be_updated, h, not_lt.mpr hd]

/-- Concrete check of C5: extending 100 to 200 succeeds with the new date
written. -/
theorem update_extension_only_witness :
    updateCapsule sampleCapsule sampleCapsule.owner none (some 200) none false 7 =
      .ok { sampleCapsule with unlock_date := 200, updated_at := 7 } :=
  (update_extension_only sampleCapsule 200 7 rfl).1 (by decide)

/-- C6: once `unlock_capsule` has succeeded on a capsule, every subsequent
owner-authorized `update_capsule` on it — whatever the prior state and the
combination of optional inputs — fails with `CapsuleAlreadyUnlocked` and
commits no change. -/
theorem update_after_unlock (c c' : Capsule) (u caller : Pubkey)
    (nc : Option String) (nd : Option Int) (nu : Option String) (rm : Bool)
    (now now' : Int)
    (hu : unlockCapsule c u now = .ok c') (hown : c'.owner = caller) :
    updateCapsule c' caller nc nd nu rm now' = .error (.code .CapsuleAlreadyUnlocked) ∧
    updateCommit c' caller nc nd nu rm now' = c' := by
  have hul : c'.is_unlocked = true := unlockCapsule_ok_is_unlocked c u now c' hu
  have herr := updateCapsule_already_unlocked c' caller nc nd nu rm now' hul hown
  exact ⟨herr, by simp [updateCommit, herr]⟩

/-- Concrete check of C6: after unlocking at time 150, a content update at
time 200 fails with `CapsuleAlreadyUnlocked`. -/
theorem update_after_unlock_witness :
    updateCapsule { sampleCapsule with is_unlocked := true, updated_at := (150 : Int) } 1
      (some "C") none none false 200 = .error (.code .CapsuleAlreadyUnlocked) :=
  (update_after_unlock sampleCapsule
    { sampleCapsule with is_unlocked := true, updated_at := (150 : Int) } 1 1
    (some "C") none none false 150 200 rfl rfl).1

/-- C7: an instruction that returns an error commits no state change: the
committed post-state equals the pre-state for update, transfer and unlock,
and the registry is unchanged across a failed create; in particular an
`update_capsule` whose `new_content` is valid but whose `new_unlock_date` is
not an extension writes the content only in the raw uncommitted sequence,
aborts with `InvalidUnlockDateExtension`, and commits nothing. -/
theorem error_atomicity (cfg : Config) (r : CreateReq) (c : Capsule)
    (caller current_owner new_owner unlocker : Pubkey) (nc : Option String)
    (nd : Option Int) (nu : Option String) (rm : Bool) (ma : Option Pubkey)
    (s : String) (d now : Int) :
    (∀ e, updateCapsule c caller nc nd nu rm now = .error e →
      updateCommit c caller nc nd nu rm now = c) ∧
    (∀ e, transferCapsule c current_owner new_owner ma now = .error e →
      transferCommit c current_owner new_owner ma now = c) ∧
    (∀ e, unlockCapsule c unlocker now = .error e →
      unlockCommit c unlocker now = c) ∧
    (∀ e, createCapsule cfg r.creator r.title r.content r.unlock_date
        r.encrypted_url r.now r.bump = .error e →
      createCommitConfig cfg r.creator r.title r.content r.unlock_date
        r.encrypted_url r.now r.bump = cfg) ∧
    (c.is_unlocked = false → c.owner = caller → s.length ≤ MAX_CONTENT_LENGTH →
      d ≤ c.unlock_date →
      (updateCapsuleWrites c (some s) (some d) nu rm now).1.content = s ∧
      updateCapsule c caller (some s) (some d) nu rm now =
        .error (.code .InvalidUnlockDateExtension) ∧
      updateCommit c caller (some s) (some d) nu rm now = c) := by
  refine ⟨?_, ?_, ?_, ?_, ?_⟩
  · intro e h
    simp [updateCommit, h]
  · intro e h
    simp [transferCommit, h]
  · intro e h
    simp [unlockCommit, h]
  · intro e h
    simp [createCommitConfig, h]
  · intro h0 hown hs hd
    have hw : updateCapsuleWrites c (some s) (some d) nu rm now =
        ({ c with content := s }, some (.code .InvalidUnlockDateExtension)) := by
      simp [updateCapsuleWrites, andThen, contentStep, dateStep, urlStep,
        Capsule.can_be_updated, h0, Nat.not_lt.mpr hs, not_lt.mpr hd]
    refine ⟨by rw [hw], ?_, ?_⟩
    · simp [updateCapsule, hown, hw]
    · simp [updateCommit, updateCapsule, hown, hw]

/-- Concrete check of C7: a valid content with a non-extension date aborts
with `InvalidUnlockDateExtension` and commits nothing. -/
theorem error_atomicity_witness :
    updateCapsule sampleCapsule 1 (some "C") (some 50) none false 7 =
      .error (.code .InvalidUnlockDateExtension) ∧
    updateCommit sampleCapsule 1 (some "C") (some 50) none false 7 = sampleCapsule := by
  have h := (error_atomicity sampleConfig sampleReq sampleCapsule 1 1 1 1
    none none none false none "C" 50 7).2.2.2.2 rfl rfl (by decide) (by decide)
  exact ⟨h.2.1, h.2.2⟩

/-- C8: `transfer_capsule` with `new_owner` equal to the calling current
owner fails with `CannotTransferToSelf`, and any call whose signer is not
the current owner fails with the not-owner error; in every failure the
committed `owner`, `transferred_at`, `mint` and `mint_creator` fields are
unchanged. -/
theorem transfer_guards (c : Capsule) (caller new_owner : Pubkey) (ma : Option Pubkey)
    (now : Int) :
    (c.owner = caller → new_owner = caller →
      transferCapsule c caller new_owner ma now = .error (.code .CannotTransferToSelf)) ∧
    (c.owner ≠ caller →
      transferCapsule c caller new_owner ma now = .error (.code .NotOwner)) ∧
    (∀ e, transferCapsule c caller new_owner ma now = .error e →
      (transferCommit c caller new_owner ma now).owner = c.owner ∧
      (transferCommit c caller new_owner ma now).transferred_at = c.transferred_at ∧
      (transferCommit c caller new_owner ma now).mint = c.mint ∧
      (transferCommit c caller new_owner ma now).mint_creator = c.mint_creator) := by
  refine ⟨?_, ?_, ?_⟩
  · intro ho hn
    simp [transferCapsule, Capsule.can_be_transferred, Capsule.is_owned_by, ho, hn]
  · intro ho
    simp [transferCapsule, Capsule.can_be_transferred, Capsule.is_owned_by, ho]
  · intro e h
    simp [transferCommit, h]

/-- Concrete check of C8: a self-transfer by the owner is rejected. -/
theorem transfer_guards_witness :
    transferCapsule sampleCapsule 1 1 none 5 = .error (.code .CannotTransferToSelf) :=
  (transfer_guards sampleCapsule 1 1 none 5).1 rfl rfl

/-- C9: in `update_capsule` the url inputs apply with removal precedence:
with `remove_encrypted_url = true` the url is cleared to `none` regardless
of `new_encrypted_url`, whose length is then not validated and whose value
is ignored; with the flag `false` and `new_encrypted_url = some u` the call
fails with `UrlTooLong` when `u.length` exceeds `MAX_URL_LENGTH`, and
otherwise sets the url to `some u`. -/
theorem update_url_semantics (c : Capsule) (nc : Option String) (nd : Option Int)
    (nu : Option String) (now : Int)
    (h0 : c.is_unlocked = false)
    (h1 : ∀ s, nc = some s → s.length ≤ MAX_CONTENT_LENGTH)
    (h2 : ∀ d, nd = some d → d > c.unlock_date) :
    (∃ c', updateCapsule c c.owner nc nd nu true now = .ok c' ∧
      c'.encrypted_url = none) ∧
    (∀ u, u.length ≤ MAX_URL_LENGTH →
      ∃ c', updateCapsule c c.owner nc nd (some u) false now = .ok c' ∧
        c'.encrypted_url = some u) ∧
    (∀ u, u.length > MAX_URL_LENGTH →
      updateCapsule c c.owner nc nd (some u) false now =
        .error (.code .UrlTooLong)) := by
  refine ⟨?_, ?_, ?_⟩
  · have hw := updateCapsuleWrites_ok_remove c nc nd nu now h0 h1 h2
    refine ⟨{ c with content := nc.getD c.content, unlock_date := nd.getD c.unlock_date,
                     encrypted_url := none, updated_at := now }, ?_, rfl⟩
    rw [updateCapsule, if_neg (by simp), hw]
  · intro u hu
    have hw := updateCapsuleWrites_ok_keep c nc nd (some u) now h0 h1 h2
      (fun u' hu' => (Option.some.inj hu') ▸ hu)
    refine ⟨{ c with content := nc.getD c.content, unlock_date := nd.getD c.unlock_date,
                     encrypted_url := some u, updated_at := now }, ?_, rfl⟩
    rw [updateCapsule, if_neg (by simp), hw]
    rfl
  · intro u hu
    cases nc with
    | none =>
      cases nd with
      | none =>
        simp [updateCapsule, updateCapsuleWrites, andThen, contentStep, dateStep,
          urlStep, Capsule.can_be_updated, h0, hu]
      | some d =>
        simp [updateCapsule, updateCapsuleWrites, andThen, contentStep, dateStep,
          urlStep, Capsule.can_be_updated, h0, h2 d rfl, hu]
    | some s =>
      have hs := Nat.not_lt.mpr (h1 s rfl)
      cases nd with
      | none =>
        simp [updateCapsule, updateCapsuleWrites, andThen, contentStep, dateStep,
          urlStep, Capsule.can_be_updated, h0, hs, hu]
      | some d =>
        simp [updateCapsule, updateCapsuleWrites, andThen, contentStep, dateStep,
          urlStep, Capsule.can_be_updated, h0, hs, h2 d rfl, hu]

/-- Concrete check of C9: removal clears the url even when the accompanying
`new_encrypted_url` is 501 characters long. -/
theorem update_url_semantics_witness :
    ∃ c', updateCapsule sampleCapsule sampleCapsule.owner none none (some longUrl) true 5 =
        .ok c' ∧ c'.encrypted_url = none :=
  (update_url_semantics sampleCapsule none none (some longUrl) 5 rfl
    (fun s hs => by cases hs) (fun d hd => by cases hd)).1

/-- C10: `close_capsule` authorizes the immutable creator, not the current
owner: a close by the creator of an unlocked capsule succeeds even after a
transfer moved ownership to someone else, a close by any non-creator
(including the post-transfer owner) fails with `UnauthorizedAccess`, and a
creator's close of a still-locked capsule fails with
`CannotCloseLockedCapsule`. -/
theorem close_authorizes_creator (c : Capsule) (caller new_owner : Pubkey)
    (ma : Option Pubkey) (now : Int) :
    (c.is_unlocked = true → closeCapsule c c.creator = .ok ()) ∧
    (caller ≠ c.creator →
      closeCapsule c caller = .error (.code .UnauthorizedAccess)) ∧
    (c.is_unlocked = false →
      closeCapsule c c.creator = .error (.code .CannotCloseLockedCapsule)) ∧
    (∀ c', transferCapsule c c.owner new_owner ma now = .ok c' →
      c'.creator = c.creator ∧ c'.owner = new_owner ∧
      (c.is_unlocked = true → closeCapsule c' c.creator = .ok ()) ∧
      (new_owner ≠ c.creator →
        closeCapsule c' new_owner = .error (.code .UnauthorizedAccess))) := by
  refine ⟨?_, ?_, ?_, ?_⟩
  · intro h
    simp [closeCapsule, h]
  · intro h
    simp [closeCapsule, Ne.symm h]
  · intro h
    simp [closeCapsule, h]
  · intro c' ht
    obtain ⟨hcr, how, hiu, -, -⟩ :=
      transferCapsule_ok_fields c c.owner new_owner ma now c' ht
    refine ⟨hcr, how, ?_, ?_⟩
    · intro hu
      simp [closeCapsule, hcr, hiu, hu]
    · intro hne
      simp [closeCapsule, hcr, Ne.symm hne]

/-- Concrete check of C10: after transferring an unlocked capsule from owner
1 to owner 2, the original creator (1) can still close it. -/
theorem close_authorizes_creator_witness :
    closeCapsule { sampleCapsule with is_unlocked := true, owner := 2,
                                      transferred_at := some 5, updated_at := (5 : Int) } 1 =
      .ok () := by
  have h := close_authorizes_creator { sampleCapsule with is_unlocked := true } 2 2 none 5
  exact (h.2.2.2 _ rfl).2.2.1 rfl

end DearFuture
